import Mathlib

/-!
Verification of the radar_mvp concurrent execution core (task scheduler,
task queues, receiver buffers) against its natural-language specification.

The C++ sources under src/radar_mvp are shallowly embedded: each C++
function that a claim depends on is translated into an executable Lean
definition over explicit state values.  Machine integers are modelled as
Nat (the counters involved never overflow in the scenarios considered),
C++ `std::shared_ptr` arguments as `Option` (null vs. non-null), thrown
C++ exceptions as `Except` results, and wall-clock timestamps are omitted
(no claim mentions them).  Concurrency is sequentialized: each atomic C++
operation (a compare-and-swap, a mutex-protected section) becomes one
total Lean function on the state, which is the standard interleaving
abstraction for these single-variable atomics.
-/

namespace Radar

/-! ## Error codes — include/common/error_codes.h (numeric values kept) -/

abbrev ErrorCode := Nat

namespace SystemErrors

def SUCCESS : ErrorCode := 0x0000

def INVALID_PARAMETER : ErrorCode := 0x0002

def OPERATION_TIMEOUT : ErrorCode := 0x0005

def CONFIGURATION_ERROR : ErrorCode := 0x0008

end SystemErrors

namespace TaskSchedulerErrors

def SCHEDULER_NOT_READY : ErrorCode := 0x3001

def TASK_QUEUE_FULL : ErrorCode := 0x3002

def TASK_EXECUTION_FAILED : ErrorCode := 0x3003

def THREAD_POOL_ERROR : ErrorCode := 0x3004

def SCHEDULING_ERROR : ErrorCode := 0x3008

def TASK_TIMEOUT : ErrorCode := 0x3009

end TaskSchedulerErrors

/-! ## Enums — include/common/types.h and task_scheduler_types.h -/

/-- enum class PacketPriority : uint8_t { LOW = 0, NORMAL, HIGH, CRITICAL } -/
inductive PacketPriority
  | LOW
  | NORMAL
  | HIGH
  | CRITICAL
deriving DecidableEq, Repr

/-- static_cast of PacketPriority (used by ScheduledTask::operator<). -/
def PacketPriority.toInt : PacketPriority → Nat
  | .LOW => 0
  | .NORMAL => 1
  | .HIGH => 2
  | .CRITICAL => 3

/-- enum class TaskState { PENDING, RUNNING, COMPLETED, FAILED, CANCELLED, TIMEOUT } -/
inductive TaskState
  | PENDING
  | RUNNING
  | COMPLETED
  | FAILED
  | CANCELLED
  | TIMEOUT
deriving DecidableEq, Repr

/-- enum class ModuleState (include/common/types.h). -/
inductive ModuleState
  | UNINITIALIZED
  | INITIALIZING
  | READY
  | RUNNING
  | PAUSED
  | ERROR
  | SHUTDOWN
deriving DecidableEq, Repr

/-- C++ exceptions that the modelled code can throw. -/
inductive CppException
  | badFunctionCall
  | invalidArgument
  | runtimeError
deriving DecidableEq, Repr

/-! ## ScheduledTask — task_scheduler_types.cpp -/

/-- Behaviour of a task body `std::function<void()>` when invoked:
it either returns normally or throws.  This is the only aspect of the
opaque user function that ScheduledTask::execute observes. -/
inductive BodyOutcome
  | returns
  | throws
deriving DecidableEq, Repr

/-- ScheduledTask (task_scheduler_types.h).  `hasFunction` models whether
the member `taskFunction_` holds a callable target (the C++ code tests
`if (!taskFunction_)`); `bodyOutcome` models what the stored function does
when called.  Timestamps (submit/start/finish) are omitted: no claim
mentions them. -/
structure ScheduledTask where
  taskId : Nat
  priority : PacketPriority
  state : TaskState
  hasFunction : Bool
  bodyOutcome : BodyOutcome
deriving DecidableEq, Repr

/-- Result of ScheduledTask::execute.  `bodyRan` is instrumentation
recording whether `taskFunction_()` was invoked during the call — it is
what the claims mean by "the task body is run". -/
structure ExecResult where
  task : ScheduledTask
  code : ErrorCode
  bodyRan : Bool
deriving DecidableEq, Repr

/-- ScheduledTask::execute (task_scheduler_types.cpp lines 37-64).
Note what the source does: it checks only that `taskFunction_` is
non-null; it never inspects `state_`.  Then setState(RUNNING), invoke the
function inside try/catch, and setState(COMPLETED) returning SUCCESS on
normal return, or setState(FAILED) returning TASK_EXECUTION_FAILED on any
catch — the exception is swallowed, so this function is total. -/
def ScheduledTask.execute (t : ScheduledTask) : ExecResult :=
  if t.hasFunction = false then
    { task := t, code := TaskSchedulerErrors.SCHEDULING_ERROR, bodyRan := false }
  else
    let t1 := { t with state := TaskState.RUNNING }
    match t1.bodyOutcome with
    | BodyOutcome.returns =>
      { task := { t1 with state := TaskState.COMPLETED }
        code := SystemErrors.SUCCESS
        bodyRan := true }
    | BodyOutcome.throws =>
      { task := { t1 with state := TaskState.FAILED }
        code := TaskSchedulerErrors.TASK_EXECUTION_FAILED
        bodyRan := true }

/-- ScheduledTask::cancel (task_scheduler_types.cpp lines 66-76):
`state_.compare_exchange_strong(PENDING, CANCELLED)`; on success returns
SUCCESS, otherwise SCHEDULING_ERROR.  The CAS on one atomic variable is
exactly this conditional update when sequentialized. -/
def ScheduledTask.cancel (t : ScheduledTask) : ScheduledTask × ErrorCode :=
  if t.state = TaskState.PENDING then
    ({ t with state := TaskState.CANCELLED }, SystemErrors.SUCCESS)
  else
    (t, TaskSchedulerErrors.SCHEDULING_ERROR)

/-- ScheduledTask::operator< (task_scheduler_types.cpp lines 107-110):
compares by priority value only. -/
def ScheduledTask.lt (a b : ScheduledTask) : Bool :=
  a.priority.toInt < b.priority.toInt

/-! ## FIFOTaskQueue — task_scheduler_queues.cpp lines 21-81

`std::queue<ScheduledTaskPtr>` modelled as a list with the front at the
head.  The `ScheduledTaskPtr` argument of enqueue is an `Option`
(null vs. non-null shared_ptr). -/

abbrev FIFOTaskQueue := List ScheduledTask

/-- FIFOTaskQueue::enqueue: a null task is rejected with SCHEDULING_ERROR;
otherwise the task is pushed unconditionally — there is no capacity
check anywhere in the function. -/
def FIFOTaskQueue.enqueue (q : FIFOTaskQueue) (task : Option ScheduledTask) :
    FIFOTaskQueue × ErrorCode :=
  match task with
  | none => (q, TaskSchedulerErrors.SCHEDULING_ERROR)
  | some t => (q ++ [t], SystemErrors.SUCCESS)

/-- FIFOTaskQueue::dequeue: with timeoutMs = 0 an empty queue yields
TASK_QUEUE_FULL, otherwise front()/pop().  With timeoutMs > 0 the wait
either sees a task (front()/pop()) or, with no concurrent producer in
this sequential model, elapses on an empty queue yielding TASK_TIMEOUT. -/
def FIFOTaskQueue.dequeue (q : FIFOTaskQueue) (timeoutMs : Nat) :
    FIFOTaskQueue × Option ScheduledTask × ErrorCode :=
  if timeoutMs = 0 then
    match q with
    | [] => (q, none, TaskSchedulerErrors.TASK_QUEUE_FULL)
    | t :: rest => (rest, some t, SystemErrors.SUCCESS)
  else
    match q with
    | [] => (q, none, TaskSchedulerErrors.TASK_TIMEOUT)
    | t :: rest => (rest, some t, SystemErrors.SUCCESS)

/-- Enqueue a list of tasks in order, collecting the returned codes. -/
def FIFOTaskQueue.enqueueAll :
    FIFOTaskQueue → List (Option ScheduledTask) → FIFOTaskQueue × List ErrorCode
  | q, [] => (q, [])
  | q, t :: ts =>
    let r1 := FIFOTaskQueue.enqueue q t
    let r2 := FIFOTaskQueue.enqueueAll r1.1 ts
    (r2.1, r1.2 :: r2.2)

/-- Dequeue n times (a single consumer draining the queue), collecting
the tasks in the order the queue hands them out. -/
def FIFOTaskQueue.dequeueN (q : FIFOTaskQueue) : Nat → List ScheduledTask
  | 0 => []
  | n + 1 =>
    match FIFOTaskQueue.dequeue q 1000 with
    | (q2, some t, _) => t :: FIFOTaskQueue.dequeueN q2 n
    | (_, none, _) => []

/-! ## PriorityTaskQueue — task_scheduler_queues.cpp lines 84-144

The member (task_scheduler_implementations.h lines 71-73) is
`std::priority_queue<ScheduledTaskPtr, std::vector<ScheduledTaskPtr>,
std::function<bool(const ScheduledTaskPtr&, const ScheduledTaskPtr&)>>`
and the class constructor is `= default`, so the comparator is a
default-constructed (empty) std::function: no comparator is ever
assigned anywhere in the repository.  Invoking an empty std::function
throws std::bad_function_call.

We model the underlying std::vector as a list and `push` as libstdc++
push_back followed by std::push_heap, with the comparator as a fallible
function (`Except`), instantiated with the always-throwing empty one. -/

/-- A comparator call that may throw (std::function invocation). -/
abbrev TaskCmp := ScheduledTask → ScheduledTask → Except CppException Bool

/-- The empty std::function comparator of PriorityTaskQueue: every
invocation throws std::bad_function_call. -/
def emptyTaskCmp : TaskCmp :=
  fun _ _ => Except.error CppException.badFunctionCall

/-- libstdc++ std::__push_heap: sift the value at holeIndex up towards
index 0, while the parent compares less than the value.  `fuel` starts at
holeIndex and strictly bounds the number of iterations (parent < hole). -/
def pushHeapAux (cmp : TaskCmp) :
    Nat → List ScheduledTask → Nat → ScheduledTask →
    Except CppException (List ScheduledTask)
  | 0, v, holeIndex, value => Except.ok (v.set holeIndex value)
  | fuel + 1, v, holeIndex, value =>
    if holeIndex > 0 then
      let parent := (holeIndex - 1) / 2
      let parentVal := v.getD parent value
      match cmp parentVal value with
      | Except.error e => Except.error e
      | Except.ok true =>
        pushHeapAux cmp fuel (v.set holeIndex parentVal) parent value
      | Except.ok false => Except.ok (v.set holeIndex value)
    else
      Except.ok (v.set holeIndex value)

/-- std::push_heap(c.begin(), c.end(), comp) on a vector `v` whose last
element is the freshly pushed `value`. -/
def pushHeap (cmp : TaskCmp) (v : List ScheduledTask) (value : ScheduledTask) :
    Except CppException (List ScheduledTask) :=
  pushHeapAux cmp (v.length - 1) v (v.length - 1) value

/-- PriorityTaskQueue::enqueue: a null task is rejected with
SCHEDULING_ERROR; otherwise `taskQueue_.push(task)` runs
c.push_back(task) then std::push_heap with the (empty) comparator.
As in the FIFO queue there is no capacity check. -/
def PriorityTaskQueue.enqueue (q : List ScheduledTask) (task : Option ScheduledTask) :
    Except CppException (List ScheduledTask × ErrorCode) :=
  match task with
  | none => Except.ok (q, TaskSchedulerErrors.SCHEDULING_ERROR)
  | some t =>
    match pushHeap emptyTaskCmp (q ++ [t]) t with
    | Except.ok h => Except.ok (h, SystemErrors.SUCCESS)
    | Except.error e => Except.error e

/-! ## DataReceiver base packet queue — base_receiver.cpp

The base class holds `std::queue<RawDataPacketPtr> packetQueue_`.
A raw packet is opaque to the queue; we model it by an id and its
byte size (getDataSize). -/

/-- Opaque raw data packet payload. -/
structure RawDataPacket where
  payloadId : Nat
  dataSize : Nat
deriving DecidableEq, Repr

/-- The part of DataReceiver state the buffer claims touch. -/
structure DataReceiverState where
  packetQueue : List RawDataPacket
  shouldStop : Bool
deriving DecidableEq, Repr

/-- BufferStatus (include/common/types.h). -/
structure BufferStatus where
  totalCapacity : Nat
  currentSize : Nat
  peakSize : Nat
  totalReceived : Nat
  totalDropped : Nat
deriving DecidableEq, Repr

/-- DataReceiver::enqueuePacket (base_receiver.cpp lines 422-450):
a null packet is ignored; otherwise the packet is pushed with no
capacity check of any kind (then the data callback is fired, which
does not touch the queue). -/
def DataReceiver.enqueuePacket (s : DataReceiverState) (packet : Option RawDataPacket) :
    DataReceiverState :=
  match packet with
  | none => s
  | some p => { s with packetQueue := s.packetQueue ++ [p] }

/-- DataReceiver::receivePacket (base_receiver.cpp lines 138-170), the
dequeue operation: after the wait, shouldStop yields RECEIVER_NOT_READY
(0x1001-range code, modelled by its distinctness from SUCCESS is all the
claims need; we reuse OPERATION_TIMEOUT for the timeout branch as in the
source), a non-empty queue yields front()/pop()/SUCCESS, and an empty
queue (the wait elapsed, no producer in this sequential model) yields
OPERATION_TIMEOUT. -/
def DataReceiver.receivePacket (s : DataReceiverState) :
    DataReceiverState × Option RawDataPacket × ErrorCode :=
  if s.shouldStop then
    (s, none, 0x1001)
  else
    match s.packetQueue with
    | [] => (s, none, SystemErrors.OPERATION_TIMEOUT)
    | p :: rest => ({ s with packetQueue := rest }, some p, SystemErrors.SUCCESS)

/-- DataReceiver::getBufferStatus (base_receiver.cpp lines 206-218):
totalCapacity is the hard-coded constant 1000 ("默认容量"), currentSize is
the live queue size, peakSize copies currentSize, and the cumulative
counters are stubbed to 0. -/
def DataReceiver.getBufferStatus (s : DataReceiverState) : BufferStatus :=
  { totalCapacity := 1000
    currentSize := s.packetQueue.length
    peakSize := s.packetQueue.length
    totalReceived := 0
    totalDropped := 0 }

/-- Enqueue n distinct valid (non-null) packets into the base receiver. -/
def DataReceiver.enqueueN (s : DataReceiverState) : Nat → DataReceiverState
  | 0 => s
  | n + 1 =>
    DataReceiver.enqueuePacket (DataReceiver.enqueueN s n) (some ⟨n, 8⟩)

/-! ## HardwareReceiver buffer — hardware_receiver.cpp -/

/-- The overflow policy strings accepted by pushToBuffer:
"drop_oldest", "drop_newest", anything else blocks. -/
inductive OverflowPolicy
  | dropOldest
  | dropNewest
  | block
deriving DecidableEq, Repr

/-- The part of HardwareReceiver state that the buffer claims touch
(dataBuffer_, config_.maxQueueSize, config_.overflowPolicy, the
statistics counters and the peak monitor). -/
structure HwReceiverState where
  dataBuffer : List RawDataPacket
  maxQueueSize : Nat
  overflowPolicy : OverflowPolicy
  packetsDropped : Nat
  packetsReceived : Nat
  bytesReceived : Nat
  peakBufferSize : Nat
  shouldStop : Bool
deriving DecidableEq, Repr

/-- Outcome of HardwareReceiver::pushToBuffer.  The C++ returns bool;
`pushed` is `true`, `rejected` is `false` (drop_newest overflow or
shouldStop observed during a blocking wait), and `blocked` marks the
branch where the caller waits on bufferNotFull_ — waking requires a
concurrent consumer, which the sequential model represents as this
distinct outcome with the state unchanged. -/
inductive PushResult
  | pushed
  | rejected
  | blocked
deriving DecidableEq, Repr

/-- HardwareReceiver::pushToBuffer (hardware_receiver.cpp lines 851-914).
At capacity (size >= maxQueueSize): drop_oldest pops the head and counts
a drop, then falls through to the insertion; drop_newest counts a drop
and returns false; otherwise the caller blocks until space or shouldStop.
The insertion pushes the packet, bumps packetsReceived and bytesReceived,
and raises the peak if exceeded. -/
def HardwareReceiver.pushToBuffer (s : HwReceiverState) (packet : RawDataPacket) :
    HwReceiverState × PushResult :=
  let insert : HwReceiverState → HwReceiverState × PushResult := fun s1 =>
    let buf := s1.dataBuffer ++ [packet]
    ({ s1 with
        dataBuffer := buf
        packetsReceived := s1.packetsReceived + 1
        bytesReceived := s1.bytesReceived + packet.dataSize
        peakBufferSize :=
          if buf.length > s1.peakBufferSize then buf.length else s1.peakBufferSize },
      PushResult.pushed)
  if s.dataBuffer.length ≥ s.maxQueueSize then
    match s.overflowPolicy with
    | OverflowPolicy.dropOldest =>
      insert { s with
        dataBuffer := s.dataBuffer.tail
        packetsDropped := s.packetsDropped + 1 }
    | OverflowPolicy.dropNewest =>
      ({ s with packetsDropped := s.packetsDropped + 1 }, PushResult.rejected)
    | OverflowPolicy.block =>
      if s.shouldStop then (s, PushResult.rejected) else (s, PushResult.blocked)
  else
    insert s

/-- HardwareReceiver::receivePacket (hardware_receiver.cpp lines 490-528),
the buffer's dequeue: shouldStop or an empty buffer (elapsed wait) yield
OPERATION_TIMEOUT; otherwise front()/pop()/SUCCESS.  (The ModuleState
guard at the top returns RECEIVER_NOT_READY; the buffer claims only need
that it does not touch the buffer, so it is folded into the caller.) -/
def HardwareReceiver.receivePacket (s : HwReceiverState) :
    HwReceiverState × Option RawDataPacket × ErrorCode :=
  if s.shouldStop then
    (s, none, SystemErrors.OPERATION_TIMEOUT)
  else
    match s.dataBuffer with
    | [] => (s, none, SystemErrors.OPERATION_TIMEOUT)
    | p :: rest => ({ s with dataBuffer := rest }, some p, SystemErrors.SUCCESS)

/-- HardwareReceiver::getBufferStatus (hardware_receiver.cpp lines 554-566). -/
def HardwareReceiver.getBufferStatus (s : HwReceiverState) : BufferStatus :=
  { totalCapacity := s.maxQueueSize
    currentSize := s.dataBuffer.length
    peakSize := s.peakBufferSize
    totalReceived := s.packetsReceived
    totalDropped := s.packetsDropped }

/-! ## TaskScheduler — task_scheduler_impl.cpp

Working-state model of one TaskScheduler instance.  The scheduler's task
queue is the FIFO queue (schedulingPolicy "fifo", the configuration the
scheduler-level claims exercise; the priority queue is settled separately
at queue level).  A caller-held `std::future`'s shared state is tracked in
`futures` and is never erased — `promises_.erase(it)` in onTaskComplete
only drops the scheduler's promise handle, which `promiseHandles` tracks.
Worker threads are counted, and the detached execution thread spawned by
workerLoop is sequentialized: `workerStep` performs one loop iteration
together with the executeTask call it spawns. -/

/-- Resolution state of one future's shared state. -/
inductive PromiseState
  | unresolved
  | resolvedValue
  | resolvedError
deriving DecidableEq, Repr

/-- TaskSchedulerConfig fields read by configure/validateConfig/start. -/
structure TaskSchedulerConfig where
  coreThreads : Nat
  maxThreads : Nat
  queueCapacity : Nat
  schedulingPolicy : String
deriving DecidableEq, Repr

/-- TaskScheduler::validateConfig (task_scheduler_impl.cpp lines 609-611):
coreThreads > 0 && maxThreads > 0 && queueCapacity > 0.  Note that
queueCapacity is read here and nowhere else in the scheduler. -/
def TaskScheduler.validateConfig (c : TaskSchedulerConfig) : Bool :=
  decide (0 < c.coreThreads) && decide (0 < c.maxThreads) && decide (0 < c.queueCapacity)

/-- TaskStatistics counters (task_scheduler_types.h).  The moving
averages and throughput are doubles driven by wall-clock time and are
omitted; no claim mentions them. -/
structure TaskStatistics where
  totalTasksSubmitted : Nat := 0
  totalTasksCompleted : Nat := 0
  totalTasksFailed : Nat := 0
  totalTasksCancelled : Nat := 0
  totalTasksTimeout : Nat := 0
  currentPendingTasks : Nat := 0
  currentRunningTasks : Nat := 0
deriving DecidableEq, Repr

/-- One TaskScheduler instance.  `ranBodies` is instrumentation: the ids
of tasks whose wrapped function has been invoked (ExecResult.bodyRan),
recording "the task body was executed". -/
structure SchedulerState where
  running : Bool := false
  shouldStop : Bool := false
  moduleState : ModuleState := ModuleState.UNINITIALIZED
  config : Option TaskSchedulerConfig := none
  queue : FIFOTaskQueue := []
  activeTasks : List (Nat × ScheduledTask) := []
  promiseHandles : List Nat := []
  futures : List (Nat × PromiseState) := []
  nextTaskId : Nat := 1
  workerThreads : Nat := 0
  currentConcurrentTasks : Nat := 0
  maxConcurrentTasks : Nat := 0
  stats : TaskStatistics := {}
  ranBodies : List Nat := []
deriving DecidableEq, Repr

/-- Look up an assoc list (std::unordered_map::find). -/
def mapLookup {α : Type} : List (Nat × α) → Nat → Option α
  | [], _ => none
  | (k, v) :: rest, key => if k = key then some v else mapLookup rest key

/-- Overwrite the value at a key in an assoc list (leaves other keys). -/
def mapSet {α : Type} : List (Nat × α) → Nat → α → List (Nat × α)
  | [], _, _ => []
  | (k, v) :: rest, key, nv =>
    if k = key then (k, nv) :: rest else (k, v) :: mapSet rest key nv

/-- Erase a key from an assoc list (std::unordered_map::erase). -/
def mapErase {α : Type} : List (Nat × α) → Nat → List (Nat × α)
  | [], _ => []
  | (k, v) :: rest, key =>
    if k = key then rest else (k, v) :: mapErase rest key

/-- TaskScheduler::configure (task_scheduler_impl.cpp lines 113-136):
reject an invalid config with INVALID_PARAMETER; otherwise store it, set
maxConcurrentTasks_ = maxThreads and create a fresh task queue. -/
def TaskScheduler.configure (s : SchedulerState) (c : TaskSchedulerConfig) :
    SchedulerState × ErrorCode :=
  if TaskScheduler.validateConfig c = false then
    (s, SystemErrors.INVALID_PARAMETER)
  else
    ({ s with
        config := some c
        maxConcurrentTasks := c.maxThreads
        queue := [] },
      SystemErrors.SUCCESS)

/-- TaskScheduler::initialize (task_scheduler_impl.cpp lines 278-294). -/
def TaskScheduler.initializeScheduler (s : SchedulerState) : SchedulerState × ErrorCode :=
  if s.moduleState ≠ ModuleState.UNINITIALIZED then
    (s, SystemErrors.SUCCESS)
  else
    match s.config with
    | none => (s, SystemErrors.CONFIGURATION_ERROR)
    | some _ =>
      ({ s with stats := {}, moduleState := ModuleState.READY }, SystemErrors.SUCCESS)

/-- TaskScheduler::start (task_scheduler_impl.cpp lines 296-320):
requires READY; sets running, clears shouldStop, starts
config_->coreThreads worker threads, moves to RUNNING.  (The config_
dereference is reachable only after initialize checked it is set; the
none branch is therefore dead and returns the not-ready code.) -/
def TaskScheduler.start (s : SchedulerState) : SchedulerState × ErrorCode :=
  if s.moduleState ≠ ModuleState.READY then
    (s, TaskSchedulerErrors.SCHEDULER_NOT_READY)
  else if s.running then
    (s, SystemErrors.SUCCESS)
  else
    match s.config with
    | none => (s, TaskSchedulerErrors.SCHEDULER_NOT_READY)
    | some c =>
      ({ s with
          running := true
          shouldStop := false
          workerThreads := c.coreThreads
          moduleState := ModuleState.RUNNING },
        SystemErrors.SUCCESS)

/-- TaskScheduler::submitTask (task_scheduler_impl.cpp lines 138-167):
a null task throws std::invalid_argument; otherwise a ScheduledTask is
constructed (fresh id, PENDING, timeout 0), a promise is registered under
its id, the task is enqueued (the FIFO enqueue of a non-null pointer
always returns SUCCESS, so the failure branch that erases the promise and
throws is dead), and the submitted/pending counters are bumped.  Returns
the id that keys the caller's future. -/
def TaskScheduler.submitTask (s : SchedulerState) (task : Option BodyOutcome)
    (priority : PacketPriority) : SchedulerState × Except CppException Nat :=
  match task with
  | none => (s, Except.error CppException.invalidArgument)
  | some body =>
    let t : ScheduledTask :=
      { taskId := s.nextTaskId
        priority := priority
        state := TaskState.PENDING
        hasFunction := true
        bodyOutcome := body }
    let s1 := { s with
      nextTaskId := s.nextTaskId + 1
      promiseHandles := s.promiseHandles ++ [t.taskId]
      futures := s.futures ++ [(t.taskId, PromiseState.unresolved)] }
    let enq := FIFOTaskQueue.enqueue s1.queue (some t)
    let s2 := { s1 with
      queue := enq.1
      stats := { s1.stats with
        totalTasksSubmitted := s1.stats.totalTasksSubmitted + 1
        currentPendingTasks := s1.stats.currentPendingTasks + 1 } }
    (s2, Except.ok t.taskId)

/-- TaskScheduler::onTaskComplete (task_scheduler_impl.cpp lines 555-585):
if a promise handle for the id exists, resolve the future's shared state
(value on SUCCESS, exception otherwise) and erase the handle. -/
def TaskScheduler.onTaskComplete (s : SchedulerState) (taskId : Nat)
    (result : ErrorCode) : SchedulerState :=
  { s with
      futures :=
        if s.promiseHandles.contains taskId then
          mapSet s.futures taskId
            (if result = SystemErrors.SUCCESS then PromiseState.resolvedValue
             else PromiseState.resolvedError)
        else
          s.futures
      promiseHandles :=
        if s.promiseHandles.contains taskId then
          s.promiseHandles.filter (fun k => k ≠ taskId)
        else
          s.promiseHandles }

/-- TaskScheduler::registerActiveTask (task_scheduler_impl.cpp lines
661-664): activeTasks_[task->getId()] = task.  This is the only place a
task enters the activeTasks_ map, and it is called from executeTask —
i.e. only once a worker has dequeued the task and begun executing it. -/
def TaskScheduler.registerActiveTask (s : SchedulerState) (t : ScheduledTask) :
    SchedulerState :=
  { s with activeTasks :=
      if (mapLookup s.activeTasks t.taskId).isSome then
        mapSet s.activeTasks t.taskId t
      else
        s.activeTasks ++ [(t.taskId, t)] }

/-- TaskScheduler::unregisterActiveTask (lines 666-669). -/
def TaskScheduler.unregisterActiveTask (s : SchedulerState) (taskId : Nat) :
    SchedulerState :=
  { s with activeTasks := mapErase s.activeTasks taskId }

/-- TaskScheduler::executeTask (task_scheduler_impl.cpp lines 521-549):
register the task as active, bump running, call task->execute() (total —
the body's exception was caught inside execute), drop running, count
completed or failed by the returned code, unregister, and resolve the
future via onTaskComplete.  The `ranBodies` log records the invocation
of the wrapped function. -/
def TaskScheduler.executeTask (s : SchedulerState) (t : ScheduledTask) :
    SchedulerState × ErrorCode :=
  let s1 := TaskScheduler.registerActiveTask s t
  let s2 := { s1 with stats :=
    { s1.stats with currentRunningTasks := s1.stats.currentRunningTasks + 1 } }
  let r := t.execute
  let s3 := { s2 with
    activeTasks := mapSet s2.activeTasks t.taskId r.task
    ranBodies := if r.bodyRan then s2.ranBodies ++ [t.taskId] else s2.ranBodies }
  let s4 := { s3 with stats :=
    { s3.stats with currentRunningTasks := s3.stats.currentRunningTasks - 1 } }
  let s5 :=
    if r.code = SystemErrors.SUCCESS then
      { s4 with stats :=
        { s4.stats with totalTasksCompleted := s4.stats.totalTasksCompleted + 1 } }
    else
      { s4 with stats :=
        { s4.stats with totalTasksFailed := s4.stats.totalTasksFailed + 1 } }
  let s6 := TaskScheduler.unregisterActiveTask s5 t.taskId
  let s7 := TaskScheduler.onTaskComplete s6 t.taskId r.code
  (s7, r.code)

/-- One iteration of TaskScheduler::workerLoop (task_scheduler_impl.cpp
lines 487-519) together with the detached executeTask thread it spawns,
sequentialized: dequeue with a 100 ms timeout; on success, if below the
concurrency limit, decrement pending and execute the task (the increment
and decrement of currentConcurrentTasks_ around the detached execution
net out); otherwise re-enqueue the task; on timeout do nothing. -/
def TaskScheduler.workerStep (s : SchedulerState) : SchedulerState :=
  match FIFOTaskQueue.dequeue s.queue 100 with
  | (q2, some t, _) =>
    if s.currentConcurrentTasks < s.maxConcurrentTasks then
      let s1 := { s with
        queue := q2
        stats := { s.stats with
          currentPendingTasks := s.stats.currentPendingTasks - 1 } }
      (TaskScheduler.executeTask s1 t).1
    else
      { s with queue := (FIFOTaskQueue.enqueue q2 (some t)).1 }
  | (_, none, _) => s

/-- TaskScheduler::stopWorkerThreads (task_scheduler_impl.cpp lines
639-659): set shouldStop and join every worker thread, then clear
workerThreads_.  Each worker observes shouldStop within its 100 ms
dequeue timeout; the 5000 ms join budget is modelled as not exceeded
(the outcome most favourable to the spec's drain claim). -/
def TaskScheduler.stopWorkerThreads (s : SchedulerState) : SchedulerState × ErrorCode :=
  ({ s with shouldStop := true, workerThreads := 0 }, SystemErrors.SUCCESS)

/-- TaskScheduler::stop (task_scheduler_impl.cpp lines 322-339): if not
running return SUCCESS; otherwise set shouldStop, clear running, join the
workers via stopWorkerThreads and move to READY.  Note what the source
does NOT do: it never touches taskQueue_, promises_ or resultPromises_ —
queued tasks and their futures are left exactly as they were. -/
def TaskScheduler.stop (s : SchedulerState) : SchedulerState × ErrorCode :=
  if s.running = false then
    (s, SystemErrors.SUCCESS)
  else
    let s1 := { s with shouldStop := true, running := false }
    let s2 := (TaskScheduler.stopWorkerThreads s1).1
    ({ s2 with moduleState := ModuleState.READY }, SystemErrors.SUCCESS)

/-- TaskScheduler::cancelTask (task_scheduler_impl.cpp lines 441-450):
look the id up in activeTasks_ — the map that only executeTask populates;
if found, forward to ScheduledTask::cancel (the shared task object is
updated in place), else SCHEDULING_ERROR. -/
def TaskScheduler.cancelTask (s : SchedulerState) (taskId : Nat) :
    SchedulerState × ErrorCode :=
  match mapLookup s.activeTasks taskId with
  | some t =>
    let r := t.cancel
    ({ s with activeTasks := mapSet s.activeTasks taskId r.1 }, r.2)
  | none => (s, TaskSchedulerErrors.SCHEDULING_ERROR)

/-- TaskScheduler::getTaskState (task_scheduler_impl.cpp lines 452-459):
state of the task in activeTasks_, or the default PENDING when absent. -/
def TaskScheduler.getTaskState (s : SchedulerState) (taskId : Nat) : TaskState :=
  match mapLookup s.activeTasks taskId with
  | some t => t.state
  | none => TaskState.PENDING

/-! ## Helper lemmas and shared sample values -/

/-- Setting a key that is present makes lookup return the new value. -/
theorem mapLookup_mapSet_self {α : Type} (l : List (Nat × α)) (k : Nat) (v : α)
    (h : (mapLookup l k).isSome = true) :
    mapLookup (mapSet l k v) k = some v := by
  induction l with
  | nil => simp [mapLookup] at h
  | cons p rest ih =>
    obtain ⟨a, b⟩ := p
    by_cases hk : a = k
    · simp [mapLookup, mapSet, hk]
    · simp [mapLookup, mapSet, hk] at h ⊢
      exact ih h

/-- Enqueueing a nonempty vector into the priority queue reaches the
first comparator invocation of std::push_heap, and the comparator is the
never-assigned empty std::function, so std::bad_function_call is thrown. -/
theorem priority_enqueue_nonempty_throws (qp : List ScheduledTask)
    (t : ScheduledTask) (hqp : qp ≠ []) :
    PriorityTaskQueue.enqueue qp (some t) =
      Except.error CppException.badFunctionCall := by
  obtain ⟨m, hm⟩ : ∃ m, qp.length = m + 1 := by
    cases qp with
    | nil => exact absurd rfl hqp
    | cons a l => exact ⟨l.length, rfl⟩
  simp [PriorityTaskQueue.enqueue, pushHeap, List.length_append, hm,
    pushHeapAux, emptyTaskCmp]

/-- Enqueueing tasks (all non-null) one by one appends them in order and
every enqueue reports SUCCESS. -/
theorem enqueueAll_map_some (q : FIFOTaskQueue) (ts : List ScheduledTask) :
    FIFOTaskQueue.enqueueAll q (ts.map some) =
      (q ++ ts, List.replicate ts.length SystemErrors.SUCCESS) := by
  induction ts generalizing q with
  | nil => simp [FIFOTaskQueue.enqueueAll]
  | cons t rest ih =>
    simp [FIFOTaskQueue.enqueueAll, FIFOTaskQueue.enqueue, ih,
      List.replicate_succ]

/-- Draining a FIFO queue one dequeue at a time returns its contents in
order. -/
theorem dequeueN_self (ts : List ScheduledTask) :
    FIFOTaskQueue.dequeueN ts ts.length = ts := by
  induction ts with
  | nil => rfl
  | cons t rest ih =>
    simp [FIFOTaskQueue.dequeueN, FIFOTaskQueue.dequeue, ih]

/-- Each base-receiver enqueue grows the unbounded queue by exactly one. -/
theorem enqueueN_length (s : DataReceiverState) (n : Nat) :
    (DataReceiver.enqueueN s n).packetQueue.length = s.packetQueue.length + n := by
  induction n with
  | zero => rfl
  | succ n ih =>
    simp [DataReceiver.enqueueN, DataReceiver.enqueuePacket, ih]
    omega

/-- A sample pending task with a callable, normally-returning body. -/
def samplePending : ScheduledTask :=
  { taskId := 1
    priority := PacketPriority.NORMAL
    state := TaskState.PENDING
    hasFunction := true
    bodyOutcome := BodyOutcome.returns }

/-- A sample task whose taskFunction_ is a null std::function. -/
def sampleNullFn : ScheduledTask :=
  { taskId := 2
    priority := PacketPriority.NORMAL
    state := TaskState.PENDING
    hasFunction := false
    bodyOutcome := BodyOutcome.returns }

/-- The fifo configuration of spec Scenario A (2 workers, capacity 10). -/
def fifoConfig : TaskSchedulerConfig :=
  { coreThreads := 2, maxThreads := 4, queueCapacity := 10, schedulingPolicy := "fifo" }

/-- A scheduler taken through configure/initialize/start with fifoConfig. -/
def schedStarted : SchedulerState :=
  (TaskScheduler.start
    (TaskScheduler.initializeScheduler (TaskScheduler.configure {} fifoConfig).1).1).1

/-- schedStarted after submitting one normally-returning task (id 1):
the task sits in the queue, no worker has dequeued it yet, and the
caller holds an unresolved future keyed by id 1. -/
def schedWithPending : SchedulerState :=
  (TaskScheduler.submitTask schedStarted (some BodyOutcome.returns)
    PacketPriority.NORMAL).1

/-! ## Claims -/

/-- C1 counterexample: on a Pending task with a valid body, cancel()
succeeds (the CAS moves it to Cancelled) and yet a subsequent execute()
still invokes the body and runs it to the terminal state Completed —
"never both" fails, because execute() never consults the state. -/
theorem C1_cancel_then_execute_both_happen :
    (samplePending.cancel).2 = SystemErrors.SUCCESS ∧
    samplePending.state = TaskState.PENDING ∧
    ((samplePending.cancel).1.execute).bodyRan = true ∧
    ((samplePending.cancel).1.execute).task.state = TaskState.COMPLETED := by
  decide

/-- C1 (amended): cancel() succeeds on a Pending task via the CAS,
moving it to Cancelled so that a second cancel() fails with a scheduling
error — at most one cancel() can win; but execute() does not check the
state, so even after a successful cancel() it still runs the body.
Mutual exclusion of execute/cancel is not enforced by ScheduledTask. -/
theorem C1_cancel_cas_wins_once (t : ScheduledTask)
    (hp : t.state = TaskState.PENDING) (hf : t.hasFunction = true) :
    (t.cancel).2 = SystemErrors.SUCCESS ∧
    (t.cancel).1.state = TaskState.CANCELLED ∧
    ((t.cancel).1.cancel).2 = TaskSchedulerErrors.SCHEDULING_ERROR ∧
    ((t.cancel).1.execute).bodyRan = true := by
  cases hbody : t.bodyOutcome <;>
    simp [ScheduledTask.cancel, ScheduledTask.execute, hp, hf, hbody,
      SystemErrors.SUCCESS, TaskSchedulerErrors.SCHEDULING_ERROR]

/-- Witness for C1_cancel_cas_wins_once at the sample pending task. -/
theorem C1_cancel_cas_wins_once_witness :
    samplePending.state = TaskState.PENDING ∧
    samplePending.hasFunction = true ∧
    ((samplePending.cancel).1.cancel).2 = TaskSchedulerErrors.SCHEDULING_ERROR :=
  ⟨by decide, by decide,
    (C1_cancel_cas_wins_once samplePending (by decide) (by decide)).2.2.1⟩

/-- C2 counterexample: execute() on a task in the Cancelled (non-Pending)
state returns SUCCESS, not a scheduling error, and invokes the wrapped
function — the source checks only that taskFunction_ is non-null. -/
theorem C2_execute_on_cancelled_runs :
    (ScheduledTask.execute
      { taskId := 3
        priority := PacketPriority.NORMAL
        state := TaskState.CANCELLED
        hasFunction := true
        bodyOutcome := BodyOutcome.returns }).code = SystemErrors.SUCCESS ∧
    (ScheduledTask.execute
      { taskId := 3
        priority := PacketPriority.NORMAL
        state := TaskState.CANCELLED
        hasFunction := true
        bodyOutcome := BodyOutcome.returns }).bodyRan = true := by
  decide

/-- C2 (amended): execute() is rejected with a scheduling error exactly
when the task's wrapped std::function is null; the task's state is never
inspected, and for every task with a non-null function execute() invokes
the body — whatever the state — and ends in Completed or Failed. -/
theorem C2_execute_rejects_only_null_function (t : ScheduledTask) :
    (t.hasFunction = false →
      t.execute =
        { task := t, code := TaskSchedulerErrors.SCHEDULING_ERROR, bodyRan := false }) ∧
    (t.hasFunction = true →
      (t.execute).bodyRan = true ∧
      ((t.execute).task.state = TaskState.COMPLETED ∨
        (t.execute).task.state = TaskState.FAILED)) := by
  constructor
  · intro h
    simp [ScheduledTask.execute, h]
  · intro h
    cases hbody : t.bodyOutcome <;> simp [ScheduledTask.execute, h, hbody]

/-- Witness for C2_execute_rejects_only_null_function: both branches
discharged at concrete tasks. -/
theorem C2_execute_rejects_only_null_function_witness :
    sampleNullFn.hasFunction = false ∧
    sampleNullFn.execute =
      { task := sampleNullFn, code := TaskSchedulerErrors.SCHEDULING_ERROR,
        bodyRan := false } ∧
    samplePending.hasFunction = true ∧
    (samplePending.execute).bodyRan = true :=
  ⟨by decide,
    (C2_execute_rejects_only_null_function sampleNullFn).1 (by decide),
    by decide,
    ((C2_execute_rejects_only_null_function samplePending).2 (by decide)).1⟩

/-- C5: evaluating the code at the failing input — a priority queue
already holding one Normal task receives a Critical task; the enqueue
runs std::push_heap, which invokes the comparator std::function that no
code ever assigned, so std::bad_function_call is thrown.  No Critical-
before-Normal dequeue (nor any two-task ordering) is reachable. -/
theorem C5_priority_enqueue_throws :
    PriorityTaskQueue.enqueue
      [{ taskId := 11
         priority := PacketPriority.NORMAL
         state := TaskState.PENDING
         hasFunction := true
         bodyOutcome := BodyOutcome.returns }]
      (some
        { taskId := 12
          priority := PacketPriority.CRITICAL
          state := TaskState.PENDING
          hasFunction := true
          bodyOutcome := BodyOutcome.returns }) =
      Except.error CppException.badFunctionCall := by
  rfl

/-- C7: N tasks enqueued into the FIFO queue in order i1..iN are all
accepted (SUCCESS each) and a single consumer draining the queue
dequeues them in exactly the insertion order. -/
theorem C7_fifo_insertion_order (ts : List ScheduledTask) :
    (FIFOTaskQueue.enqueueAll [] (ts.map some)).2 =
      List.replicate ts.length SystemErrors.SUCCESS ∧
    FIFOTaskQueue.dequeueN (FIFOTaskQueue.enqueueAll [] (ts.map some)).1
      ts.length = ts := by
  refine ⟨?_, ?_⟩
  · simp [enqueueAll_map_some]
  · simp [enqueueAll_map_some, dequeueN_self]

/-- An empty base DataReceiver packet queue. -/
def receiverEmpty : DataReceiverState :=
  { packetQueue := [], shouldStop := false }

/-- C6 counterexample: the base DataReceiver's enqueuePacket performs no
capacity check while its getBufferStatus reports the hard-coded capacity
1000, so after 1001 valid enqueues the snapshot has
currentSize = 1001 > 1000 = totalCapacity. -/
theorem C6_base_receiver_exceeds_capacity :
    ¬ ((DataReceiver.getBufferStatus (DataReceiver.enqueueN receiverEmpty 1001)).currentSize ≤
       (DataReceiver.getBufferStatus (DataReceiver.enqueueN receiverEmpty 1001)).totalCapacity) := by
  simp [DataReceiver.getBufferStatus, enqueueN_length, receiverEmpty]

/-- C6 (amended): the capacity invariant currentSize ≤ totalCapacity
holds for the HardwareReceiver buffer — pushToBuffer enforces
maxQueueSize through the overflow policy (for any positive capacity) and
receivePacket only shrinks the buffer — but not for the base
DataReceiver packet queue, whose enqueuePacket is unbounded while
getBufferStatus reports the constant capacity 1000. -/
theorem C6_hw_capacity_invariant (s : HwReceiverState) (p : RawDataPacket)
    (hinv : s.dataBuffer.length ≤ s.maxQueueSize) (hcap : 1 ≤ s.maxQueueSize) :
    (HardwareReceiver.getBufferStatus s).currentSize ≤
      (HardwareReceiver.getBufferStatus s).totalCapacity ∧
    (HardwareReceiver.pushToBuffer s p).1.dataBuffer.length ≤
      (HardwareReceiver.pushToBuffer s p).1.maxQueueSize ∧
    (HardwareReceiver.receivePacket s).1.dataBuffer.length ≤
      (HardwareReceiver.receivePacket s).1.maxQueueSize := by
  refine ⟨?_, ?_, ?_⟩
  · simp only [HardwareReceiver.getBufferStatus]
    exact hinv
  · simp only [HardwareReceiver.pushToBuffer]
    split
    · rename_i hfull
      cases hpol : s.overflowPolicy
      · simp_all [List.length_tail]
        omega
      · simp_all
      · by_cases hstop : s.shouldStop <;> simp_all
    · rename_i hnotfull
      simp_all
      omega
  · simp only [HardwareReceiver.receivePacket]
    split
    · exact hinv
    · cases hbuf : s.dataBuffer with
      | nil => exact hinv
      | cons q rest =>
        simp [hbuf] at hinv ⊢
        omega

/-- Witness for C6_hw_capacity_invariant at a capacity-2 buffer holding
one packet. -/
theorem C6_hw_capacity_invariant_witness :
    (HwReceiverState.mk [⟨100, 8⟩] 2 OverflowPolicy.dropOldest 0 1 8 1 false).dataBuffer.length ≤
      (HwReceiverState.mk [⟨100, 8⟩] 2 OverflowPolicy.dropOldest 0 1 8 1 false).maxQueueSize ∧
    (HardwareReceiver.pushToBuffer
      (HwReceiverState.mk [⟨100, 8⟩] 2 OverflowPolicy.dropOldest 0 1 8 1 false)
      ⟨101, 8⟩).1.dataBuffer.length ≤
      (HardwareReceiver.pushToBuffer
        (HwReceiverState.mk [⟨100, 8⟩] 2 OverflowPolicy.dropOldest 0 1 8 1 false)
        ⟨101, 8⟩).1.maxQueueSize :=
  ⟨by decide,
    (C6_hw_capacity_invariant
      (HwReceiverState.mk [⟨100, 8⟩] 2 OverflowPolicy.dropOldest 0 1 8 1 false)
      ⟨101, 8⟩ (by decide) (by decide)).2.1⟩

/-- An empty capacity-2 HardwareReceiver buffer with drop_oldest. -/
def hwCap2 : HwReceiverState :=
  { dataBuffer := []
    maxQueueSize := 2
    overflowPolicy := OverflowPolicy.dropOldest
    packetsDropped := 0
    packetsReceived := 0
    bytesReceived := 0
    peakBufferSize := 0
    shouldStop := false }

/-- C9: Scenario B — capacity-2 buffer with drop_oldest; pushing A, B, C
in order leaves exactly [B, C] in the buffer with a cumulative dropped
count of 1, every push reporting success (true). -/
theorem C9_drop_oldest_scenario :
    (HardwareReceiver.pushToBuffer
        (HardwareReceiver.pushToBuffer
          (HardwareReceiver.pushToBuffer hwCap2 ⟨100, 8⟩).1 ⟨101, 8⟩).1
        ⟨102, 8⟩).1.dataBuffer = [⟨101, 8⟩, ⟨102, 8⟩] ∧
    (HardwareReceiver.pushToBuffer
        (HardwareReceiver.pushToBuffer
          (HardwareReceiver.pushToBuffer hwCap2 ⟨100, 8⟩).1 ⟨101, 8⟩).1
        ⟨102, 8⟩).1.packetsDropped = 1 ∧
    (HardwareReceiver.pushToBuffer
        (HardwareReceiver.pushToBuffer
          (HardwareReceiver.pushToBuffer hwCap2 ⟨100, 8⟩).1 ⟨101, 8⟩).1
        ⟨102, 8⟩).2 = PushResult.pushed := by
  decide

/-- C10 counterexample: enqueue into the Priority task queue does NOT
succeed for every non-null task — with one task already stored, the next
(non-null) enqueue throws std::bad_function_call instead of returning
SUCCESS, because std::push_heap invokes the never-assigned comparator. -/
theorem C10_priority_enqueue_not_total :
    PriorityTaskQueue.enqueue
      [{ taskId := 21
         priority := PacketPriority.LOW
         state := TaskState.PENDING
         hasFunction := true
         bodyOutcome := BodyOutcome.throws }]
      (some
        { taskId := 22
          priority := PacketPriority.LOW
          state := TaskState.PENDING
          hasFunction := true
          bodyOutcome := BodyOutcome.returns }) ≠
      Except.ok
        ([{ taskId := 21
            priority := PacketPriority.LOW
            state := TaskState.PENDING
            hasFunction := true
            bodyOutcome := BodyOutcome.throws },
          { taskId := 22
            priority := PacketPriority.LOW
            state := TaskState.PENDING
            hasFunction := true
            bodyOutcome := BodyOutcome.returns }], SystemErrors.SUCCESS) := by
  rw [priority_enqueue_nonempty_throws _ _ (by simp)]
  exact fun h => Except.noConfusion h

/-- C10 (amended): for the FIFO queue the claim holds — enqueue succeeds
and appends for every non-null task at every queue size (queueCapacity,
validated as positive by configure's validateConfig, is read nowhere
else, so the queue grows without bound) and a null task is the one
rejected case.  For the Priority queue this holds only while the queue is
empty: any enqueue of a non-null task into a nonempty priority queue
throws std::bad_function_call from the never-initialized comparator
(boundedness is again never enforced; null is rejected the same way). -/
theorem C10_fifo_unbounded_null_rejected (q : FIFOTaskQueue)
    (t : ScheduledTask) (qp : List ScheduledTask) (hqp : qp ≠ []) :
    FIFOTaskQueue.enqueue q (some t) = (q ++ [t], SystemErrors.SUCCESS) ∧
    FIFOTaskQueue.enqueue q none = (q, TaskSchedulerErrors.SCHEDULING_ERROR) ∧
    (∀ c : TaskSchedulerConfig,
      TaskScheduler.validateConfig c = true ↔
        0 < c.coreThreads ∧ 0 < c.maxThreads ∧ 0 < c.queueCapacity) ∧
    PriorityTaskQueue.enqueue [] (some t) =
      Except.ok ([t], SystemErrors.SUCCESS) ∧
    PriorityTaskQueue.enqueue qp none =
      Except.ok (qp, TaskSchedulerErrors.SCHEDULING_ERROR) ∧
    PriorityTaskQueue.enqueue qp (some t) =
      Except.error CppException.badFunctionCall := by
  refine ⟨rfl, rfl, ?_, ?_, rfl, priority_enqueue_nonempty_throws qp t hqp⟩
  · intro c
    simp [TaskScheduler.validateConfig, and_assoc]
  · simp [PriorityTaskQueue.enqueue, pushHeap, pushHeapAux]

/-- Witness for C10_fifo_unbounded_null_rejected at concrete queues. -/
theorem C10_fifo_unbounded_null_rejected_witness :
    ([samplePending] : List ScheduledTask) ≠ [] ∧
    PriorityTaskQueue.enqueue [samplePending] (some sampleNullFn) =
      Except.error CppException.badFunctionCall :=
  ⟨by decide,
    (C10_fifo_unbounded_null_rejected [] sampleNullFn [samplePending]
      (by decide)).2.2.2.2.2⟩

/-- C3 counterexample: a running scheduler with one submitted task still
queued (schedWithPending).  stop() returns SUCCESS having joined the
workers, but the task is still sitting in the queue and the future the
submitter holds (id 1) is still unresolved — no shutdown fault, no value. -/
theorem C3_stop_leaves_pending_future_unresolved :
    (TaskScheduler.stop schedWithPending).2 = SystemErrors.SUCCESS ∧
    (TaskScheduler.stop schedWithPending).1.workerThreads = 0 ∧
    mapLookup (TaskScheduler.stop schedWithPending).1.futures 1 =
      some PromiseState.unresolved ∧
    (TaskScheduler.stop schedWithPending).1.queue ≠ [] := by
  decide

/-- C3 (amended): after stop() returns on a running scheduler, shouldStop
is set, running is cleared, the worker-loop threads are all joined
(workerThreads = 0) and the module is READY; but stop() touches neither
the task queue nor the promises, so every task still Pending stays in the
queue and its future stays unresolved — there is no drain and no
shutdown fault.  (Execution threads spawned detached by workerLoop are
not joined either.) -/
theorem C3_stop_joins_without_draining (s : SchedulerState)
    (h : s.running = true) :
    (TaskScheduler.stop s).2 = SystemErrors.SUCCESS ∧
    (TaskScheduler.stop s).1.workerThreads = 0 ∧
    (TaskScheduler.stop s).1.running = false ∧
    (TaskScheduler.stop s).1.shouldStop = true ∧
    (TaskScheduler.stop s).1.moduleState = ModuleState.READY ∧
    (TaskScheduler.stop s).1.futures = s.futures ∧
    (TaskScheduler.stop s).1.queue = s.queue := by
  simp [TaskScheduler.stop, TaskScheduler.stopWorkerThreads, h]

/-- Witness for C3_stop_joins_without_draining at schedWithPending. -/
theorem C3_stop_joins_without_draining_witness :
    schedWithPending.running = true ∧
    (TaskScheduler.stop schedWithPending).1.futures = schedWithPending.futures :=
  ⟨by decide, (C3_stop_joins_without_draining schedWithPending (by decide)).2.2.2.2.2.1⟩

/-- C4 counterexample: in schedWithPending the submitted task (id 1) has
not been dequeued by any worker, so it is absent from activeTasks_;
cancelTask(1) therefore fails with SCHEDULING_ERROR, getTaskState(1)
returns the default Pending — not Cancelled — and when a worker does run,
the task body is executed anyway (ranBodies = [1]). -/
theorem C4_cancel_before_dequeue_fails :
    (TaskScheduler.cancelTask schedWithPending 1).2 =
      TaskSchedulerErrors.SCHEDULING_ERROR ∧
    TaskScheduler.getTaskState schedWithPending 1 = TaskState.PENDING ∧
    TaskScheduler.getTaskState schedWithPending 1 ≠ TaskState.CANCELLED ∧
    (TaskScheduler.workerStep (TaskScheduler.cancelTask schedWithPending 1).1).ranBodies
      = [1] := by
  decide

/-- C4 (amended): cancelling a submitted task before any worker dequeues
it cannot succeed: tasks are registered in activeTasks_ only when
executeTask starts running them, so cancelTask on an unregistered id
returns SCHEDULING_ERROR and changes nothing, getTaskState returns the
default Pending, and the task's body still runs when it is dequeued. -/
theorem C4_cancel_needs_registration (s : SchedulerState) (taskId : Nat)
    (h : mapLookup s.activeTasks taskId = none) :
    TaskScheduler.cancelTask s taskId = (s, TaskSchedulerErrors.SCHEDULING_ERROR) ∧
    TaskScheduler.getTaskState s taskId = TaskState.PENDING := by
  simp [TaskScheduler.cancelTask, TaskScheduler.getTaskState, h]

/-- Witness for C4_cancel_needs_registration at schedWithPending. -/
theorem C4_cancel_needs_registration_witness :
    mapLookup schedWithPending.activeTasks 1 = none ∧
    TaskScheduler.cancelTask schedWithPending 1 =
      (schedWithPending, TaskSchedulerErrors.SCHEDULING_ERROR) :=
  ⟨by decide, (C4_cancel_needs_registration schedWithPending 1 (by decide)).1⟩

/-- executeTask resolves the executed task's future according to the
code execute() returned and counts the task exactly once as completed or
failed, provided the scheduler still holds the promise handle and the
future's shared state exists. -/
theorem executeTask_unfold (s : SchedulerState) (t : ScheduledTask)
    (hreg : s.promiseHandles.contains t.taskId = true)
    (hfut : (mapLookup s.futures t.taskId).isSome = true) :
    (TaskScheduler.executeTask s t).2 = (t.execute).code ∧
    mapLookup (TaskScheduler.executeTask s t).1.futures t.taskId =
      some (if (t.execute).code = SystemErrors.SUCCESS
            then PromiseState.resolvedValue else PromiseState.resolvedError) ∧
    (TaskScheduler.executeTask s t).1.stats.totalTasksFailed =
      (if (t.execute).code = SystemErrors.SUCCESS then s.stats.totalTasksFailed
       else s.stats.totalTasksFailed + 1) ∧
    (TaskScheduler.executeTask s t).1.stats.totalTasksCompleted =
      (if (t.execute).code = SystemErrors.SUCCESS then s.stats.totalTasksCompleted + 1
       else s.stats.totalTasksCompleted) := by
  have hmem : t.taskId ∈ s.promiseHandles := by
    simpa using hreg
  by_cases hc : (t.execute).code = SystemErrors.SUCCESS <;>
    simp [TaskScheduler.executeTask, TaskScheduler.registerActiveTask,
      TaskScheduler.unregisterActiveTask, TaskScheduler.onTaskComplete,
      hc, hmem, hfut, mapLookup_mapSet_self]

/-- C8: a task whose body throws ends in the terminal state Failed with
the fault captured — execute() returns TASK_EXECUTION_FAILED instead of
propagating the exception (it is a total function of the task), the
worker's executeTask increments totalTasksFailed by exactly one and
resolves that task's future with an error; and a task executed
afterwards is unaffected: it completes normally, its future resolves
with a value and totalTasksCompleted increments. -/
theorem C8_throwing_task_contained (s : SchedulerState) (t t2 : ScheduledTask)
    (hf : t.hasFunction = true) (hb : t.bodyOutcome = BodyOutcome.throws)
    (hreg : s.promiseHandles.contains t.taskId = true)
    (hfut : (mapLookup s.futures t.taskId).isSome = true)
    (hf2 : t2.hasFunction = true) (hb2 : t2.bodyOutcome = BodyOutcome.returns)
    (hreg2 : (TaskScheduler.executeTask s t).1.promiseHandles.contains t2.taskId = true)
    (hfut2 : (mapLookup (TaskScheduler.executeTask s t).1.futures t2.taskId).isSome = true) :
    (t.execute).task.state = TaskState.FAILED ∧
    (TaskScheduler.executeTask s t).2 = TaskSchedulerErrors.TASK_EXECUTION_FAILED ∧
    (TaskScheduler.executeTask s t).1.stats.totalTasksFailed =
      s.stats.totalTasksFailed + 1 ∧
    mapLookup (TaskScheduler.executeTask s t).1.futures t.taskId =
      some PromiseState.resolvedError ∧
    (TaskScheduler.executeTask (TaskScheduler.executeTask s t).1 t2).2 =
      SystemErrors.SUCCESS ∧
    (TaskScheduler.executeTask (TaskScheduler.executeTask s t).1 t2).1.stats.totalTasksCompleted =
      (TaskScheduler.executeTask s t).1.stats.totalTasksCompleted + 1 ∧
    mapLookup
      (TaskScheduler.executeTask (TaskScheduler.executeTask s t).1 t2).1.futures
      t2.taskId = some PromiseState.resolvedValue := by
  have hexec : t.execute =
      { task := { t with state := TaskState.FAILED }
        code := TaskSchedulerErrors.TASK_EXECUTION_FAILED
        bodyRan := true } := by
    simp [ScheduledTask.execute, hf, hb]
  have hexec2 : t2.execute =
      { task := { t2 with state := TaskState.COMPLETED }
        code := SystemErrors.SUCCESS
        bodyRan := true } := by
    simp [ScheduledTask.execute, hf2, hb2]
  have h1 := executeTask_unfold s t hreg hfut
  have h2 := executeTask_unfold (TaskScheduler.executeTask s t).1 t2 hreg2 hfut2
  rw [hexec] at h1
  rw [hexec2] at h2
  simp only [SystemErrors.SUCCESS, TaskSchedulerErrors.TASK_EXECUTION_FAILED] at h1 h2
  norm_num at h1 h2
  obtain ⟨h1c, h1f, h1fail, h1comp⟩ := h1
  obtain ⟨h2c, h2f, h2fail, h2comp⟩ := h2
  exact ⟨by simp [hexec], by simp [h1c, TaskSchedulerErrors.TASK_EXECUTION_FAILED],
    h1fail, h1f, by simp [h2c, SystemErrors.SUCCESS], h2comp, h2f⟩

/-- schedStarted after submitting a throwing task (id 1) and a normally
returning task (id 2). -/
def schedTwo : SchedulerState :=
  (TaskScheduler.submitTask
    (TaskScheduler.submitTask schedStarted (some BodyOutcome.throws)
      PacketPriority.NORMAL).1
    (some BodyOutcome.returns) PacketPriority.NORMAL).1

/-- The ScheduledTask values schedTwo holds in its queue. -/
def taskThrow1 : ScheduledTask :=
  { taskId := 1
    priority := PacketPriority.NORMAL
    state := TaskState.PENDING
    hasFunction := true
    bodyOutcome := BodyOutcome.throws }

/-- The second, normally-returning task of schedTwo. -/
def taskOk2 : ScheduledTask :=
  { taskId := 2
    priority := PacketPriority.NORMAL
    state := TaskState.PENDING
    hasFunction := true
    bodyOutcome := BodyOutcome.returns }

/-- Witness for C8_throwing_task_contained at schedTwo. -/
theorem C8_throwing_task_contained_witness :
    taskThrow1.hasFunction = true ∧
    taskThrow1.bodyOutcome = BodyOutcome.throws ∧
    schedTwo.promiseHandles.contains taskThrow1.taskId = true ∧
    (mapLookup schedTwo.futures taskThrow1.taskId).isSome = true ∧
    taskOk2.hasFunction = true ∧
    taskOk2.bodyOutcome = BodyOutcome.returns ∧
    (TaskScheduler.executeTask schedTwo taskThrow1).1.promiseHandles.contains
      taskOk2.taskId = true ∧
    (mapLookup (TaskScheduler.executeTask schedTwo taskThrow1).1.futures
      taskOk2.taskId).isSome = true ∧
    mapLookup
      (TaskScheduler.executeTask
        (TaskScheduler.executeTask schedTwo taskThrow1).1 taskOk2).1.futures
      taskOk2.taskId = some PromiseState.resolvedValue :=
  ⟨by decide, by decide, by decide, by decide, by decide, by decide, by decide,
    by decide,
    (C8_throwing_task_contained schedTwo taskThrow1 taskOk2 (by decide) (by decide)
      (by decide) (by decide) (by decide) (by decide) (by decide)
      (by decide)).2.2.2.2.2.2⟩

end Radar
